import Mathlib

/-!
Verification development for the streaming-response core of the paytech
assistant web client.  The definitions below are a shallow embedding of the
JavaScript source (the SSE frame parser `readSseStream`, the delta buffer
`streamAppend` / `flushStreamNow`, the finalize operations, and the fallback
controller `runChatFallback` inside `sendMessage`).  DOM mutations and purely
visual side effects (topbar status, thinking indicator, toasts, scrolling) are
not part of the model; the conversation data (message `content`, `interrupted`
flag, sources, artifacts) and the control flags of the send routine are.
-/

set_option maxRecDepth 20000

/-! ## JavaScript platform primitives used by the source

`JSON.parse`, `String.prototype.trim` / `trimStart`, string coercion and
truthiness are host primitives; they are modelled here so that the functions
translated from the source are executable.  JSON numbers are kept as their
raw source text (no claim depends on numeric formatting).
-/

/-- Character class of the JavaScript regular-expression class `\s`,
which is also the set trimmed by `String.prototype.trim`. -/
def isJsWs (c : Char) : Bool :=
  c = ' ' || c = '\t' || c = '\n' || c = '\r' || c = '\x0b' || c = '\x0c' ||
  c = '\u00A0' || c = '\u1680' || ('\u2000' ≤ c && c ≤ '\u200A') ||
  c = '\u2028' || c = '\u2029' || c = '\u202F' || c = '\u205F' ||
  c = '\u3000' || c = '\uFEFF'

/-- Leading-whitespace strip on character lists (JS `trimStart`). -/
def jsTrimStartL (l : List Char) : List Char := l.dropWhile isJsWs

/-- Trailing-whitespace strip on character lists. -/
def jsTrimEndL (l : List Char) : List Char := (l.reverse.dropWhile isJsWs).reverse

/-- JS `String.prototype.trimStart`. -/
def jsTrimStart (s : String) : String := String.mk (jsTrimStartL s.data)

/-- JS `String.prototype.trim`. -/
def jsTrim (s : String) : String := String.mk (jsTrimEndL (jsTrimStartL s.data))

/-- JS `String.prototype.toLowerCase`, character by character (the phase
names compared in the source are ASCII). -/
def jsToLower (s : String) : String := String.mk (s.data.map Char.toLower)

/-- JSON values as produced by `JSON.parse`.  Numbers keep their raw text. -/
inductive Json where
  | null : Json
  | bool (b : Bool) : Json
  | num (raw : String) : Json
  | str (s : String) : Json
  | arr (elems : List Json) : Json
  | obj (fields : List (String × Json)) : Json
deriving Repr, Inhabited

/-- JSON grammar whitespace (narrower than the JS `\s` class). -/
def jsonWsChar (c : Char) : Bool := c = ' ' || c = '\t' || c = '\n' || c = '\r'

/-- Skip JSON grammar whitespace. -/
def skipJsonWs (l : List Char) : List Char := l.dropWhile jsonWsChar

/-- Value of one hexadecimal digit, by code point. -/
def hexVal (c : Char) : Option Nat :=
  let n := c.toNat
  if 48 ≤ n && n ≤ 57 then some (n - 48)
  else if 97 ≤ n && n ≤ 102 then some (n - 87)
  else if 65 ≤ n && n ≤ 70 then some (n - 55)
  else none

/-- Parse exactly four hexadecimal digits (the `\uXXXX` escape). -/
def parseHex4 : List Char → Option (Nat × List Char)
  | a :: b :: c :: d :: rest =>
    match hexVal a, hexVal b, hexVal c, hexVal d with
    | some x, some y, some z, some w => some ((((x * 16 + y) * 16 + z) * 16 + w), rest)
    | _, _, _, _ => none
  | _ => none

/-- Body of a JSON string literal, after the opening quote.  Control
characters below `0x20` are rejected, escape sequences are decoded.
(A `\u` escape naming a UTF-16 surrogate is outside `Char`; it decodes to
the replacement of `Char.ofNat`, an edge no claim depends on.) -/
def parseStringBody : Nat → List Char → List Char → Option (String × List Char)
  | 0, _, _ => none
  | _, [], _ => none
  | fuel + 1, c :: rest, acc =>
    if c = '"' then some (String.mk acc, rest)
    else if c = '\\' then
      match rest with
      | [] => none
      | e :: rest2 =>
        if e = '"' then parseStringBody fuel rest2 (acc ++ ['"'])
        else if e = '\\' then parseStringBody fuel rest2 (acc ++ ['\\'])
        else if e = '/' then parseStringBody fuel rest2 (acc ++ ['/'])
        else if e = 'b' then parseStringBody fuel rest2 (acc ++ ['\x08'])
        else if e = 'f' then parseStringBody fuel rest2 (acc ++ ['\x0c'])
        else if e = 'n' then parseStringBody fuel rest2 (acc ++ ['\n'])
        else if e = 'r' then parseStringBody fuel rest2 (acc ++ ['\r'])
        else if e = 't' then parseStringBody fuel rest2 (acc ++ ['\t'])
        else if e = 'u' then
          match parseHex4 rest2 with
          | some (n, rest3) => parseStringBody fuel rest3 (acc ++ [Char.ofNat n])
          | none => none
        else none
    else if c.toNat < 0x20 then none
    else parseStringBody fuel rest (acc ++ [c])

/-- Digit run for the JSON number grammar. -/
def takeDigits (l : List Char) : List Char × List Char :=
  (l.takeWhile Char.isDigit, l.dropWhile Char.isDigit)

/-- JSON number literal: `-? int frac? exp?` with no leading zeros. -/
def parseNumberChars (l : List Char) : Option (List Char × List Char) :=
  let (sign, l1) := match l with
    | '-' :: rest => (['-'], rest)
    | _ => (([] : List Char), l)
  match l1 with
  | [] => none
  | c :: _ =>
    if ¬ c.isDigit then none
    else
      let (intPart, l2) := takeDigits l1
      if intPart.length > 1 && intPart.headI = '0' then none
      else
        let (fracPart, l3) := match l2 with
          | '.' :: rest =>
            let (ds, r) := takeDigits rest
            if ds = [] then (none, l2) else (some ('.' :: ds), r)
          | _ => (none, l2)
        match fracPart with
        | none =>
          match l2 with
          | '.' :: _ => none
          | _ =>
            let (expPart, l4) := match l2 with
              | e :: rest =>
                if e = 'e' || e = 'E' then
                  let (sgn, rest2) := match rest with
                    | s :: r2 => if s = '+' || s = '-' then ([s], r2) else (([] : List Char), rest)
                    | [] => ([], rest)
                  let (ds, r3) := takeDigits rest2
                  if ds = [] then (none, l2) else (some (e :: (sgn ++ ds)), r3)
                else (none, l2)
              | [] => (none, l2)
            match expPart with
            | none => some (sign ++ intPart, l2)
            | some ep => some (sign ++ intPart ++ ep, l4)
        | some fp =>
          let (expPart, l4) := match l3 with
            | e :: rest =>
              if e = 'e' || e = 'E' then
                let (sgn, rest2) := match rest with
                  | s :: r2 => if s = '+' || s = '-' then ([s], r2) else (([] : List Char), rest)
                  | [] => ([], rest)
                let (ds, r3) := takeDigits rest2
                if ds = [] then (none, l3) else (some (e :: (sgn ++ ds)), r3)
              else (none, l3)
            | [] => (none, l3)
          match expPart with
          | none => some (sign ++ intPart ++ fp, l3)
          | some ep => some (sign ++ intPart ++ fp ++ ep, l4)

mutual

/-- Recursive-descent JSON value parser (models `JSON.parse`). -/
def parseJsonValue : Nat → List Char → Option (Json × List Char)
  | 0, _ => none
  | fuel + 1, l =>
    match skipJsonWs l with
    | [] => none
    | c :: rest =>
      if c = '{' then
        match skipJsonWs rest with
        | '}' :: rest2 => some (Json.obj [], rest2)
        | l2 => match parseObjMembers fuel l2 with
          | some (fields, rest2) => some (Json.obj fields, rest2)
          | none => none
      else if c = '[' then
        match skipJsonWs rest with
        | ']' :: rest2 => some (Json.arr [], rest2)
        | l2 => match parseArrElems fuel l2 with
          | some (elems, rest2) => some (Json.arr elems, rest2)
          | none => none
      else if c = '"' then
        match parseStringBody (rest.length + 1) rest [] with
        | some (s, rest2) => some (Json.str s, rest2)
        | none => none
      else if c = 't' then
        match rest with
        | 'r' :: 'u' :: 'e' :: rest2 => some (Json.bool true, rest2)
        | _ => none
      else if c = 'f' then
        match rest with
        | 'a' :: 'l' :: 's' :: 'e' :: rest2 => some (Json.bool false, rest2)
        | _ => none
      else if c = 'n' then
        match rest with
        | 'u' :: 'l' :: 'l' :: rest2 => some (Json.null, rest2)
        | _ => none
      else
        match parseNumberChars (c :: rest) with
        | some (raw, rest2) => some (Json.num (String.mk raw), rest2)
        | none => none

/-- Array elements after the opening bracket (nonempty case). -/
def parseArrElems : Nat → List Char → Option (List Json × List Char)
  | 0, _ => none
  | fuel + 1, l =>
    match parseJsonValue fuel l with
    | none => none
    | some (v, rest) =>
      match skipJsonWs rest with
      | ',' :: rest2 =>
        match parseArrElems fuel rest2 with
        | some (vs, rest3) => some (v :: vs, rest3)
        | none => none
      | ']' :: rest2 => some ([v], rest2)
      | _ => none

/-- Object members after the opening brace (nonempty case). -/
def parseObjMembers : Nat → List Char → Option (List (String × Json) × List Char)
  | 0, _ => none
  | fuel + 1, l =>
    match skipJsonWs l with
    | '"' :: rest =>
      match parseStringBody (rest.length + 1) rest [] with
      | none => none
      | some (k, rest2) =>
        match skipJsonWs rest2 with
        | ':' :: rest3 =>
          match parseJsonValue fuel rest3 with
          | none => none
          | some (v, rest4) =>
            match skipJsonWs rest4 with
            | ',' :: rest5 =>
              match parseObjMembers fuel rest5 with
              | some (fields, rest6) => some ((k, v) :: fields, rest6)
              | none => none
            | '}' :: rest5 => some ([(k, v)], rest5)
            | _ => none
        | _ => none
    | _ => none

end

/-- Source `safeJsonParse`: `JSON.parse` wrapped to return `null` on any
syntax error.  `none` is the model of that `null` result. -/
def safeJsonParse (s : String) : Option Json :=
  match parseJsonValue (2 * s.data.length + 4) s.data with
  | some (v, rest) => if skipJsonWs rest = [] then some v else none
  | none => none

/-- Whether the mantissa of a raw JSON number denotes zero. -/
def numIsZero (raw : String) : Bool :=
  ((raw.data.takeWhile (fun c => c ≠ 'e' && c ≠ 'E')).filter Char.isDigit).all (· = '0')

/-- JavaScript truthiness of a parsed JSON value. -/
def jsTruthy : Json → Bool
  | Json.null => false
  | Json.bool b => b
  | Json.num raw => ¬ numIsZero raw
  | Json.str s => s ≠ ""
  | Json.arr _ => true
  | Json.obj _ => true

mutual

/-- JavaScript `String(x)` coercion of a parsed JSON value (arrays join
their elements with commas, objects print as `[object Object]`). -/
def jsToString : Json → String
  | Json.null => "null"
  | Json.bool b => if b then "true" else "false"
  | Json.num raw => raw
  | Json.str s => s
  | Json.arr xs => String.intercalate "," (jsToStringElems xs)
  | Json.obj _ => "[object Object]"

/-- Array elements under `Array.prototype.toString`: `null` renders empty. -/
def jsToStringElems : List Json → List String
  | [] => []
  | Json.null :: rest => "" :: jsToStringElems rest
  | x :: rest => jsToString x :: jsToStringElems rest

end

/-- Last-wins lookup among object fields (duplicate JSON keys keep the
final occurrence, as `JSON.parse` does). -/
def fieldLookup (fields : List (String × Json)) (k : String) : Option Json :=
  match fields with
  | [] => none
  | (k2, v) :: rest =>
    match fieldLookup rest k with
    | some v2 => some v2
    | none => if k2 = k then some v else none

/-- Property access `j.k` on a parsed JSON value: defined only on objects,
`undefined` (here `none`) everywhere else. -/
def Json.getField : Json → String → Option Json
  | Json.obj fields, k => fieldLookup fields k
  | _, _ => none

/-- Whether a JSON value is the JS `null` (the `x != null` checks). -/
def Json.isNull : Json → Bool
  | Json.null => true
  | _ => false

/-! ## Frame parser (`readSseStream`, source part_003 lines 2503-2650)

The parser keeps a rolling text buffer, splits it on newlines, accumulates
`data:` lines until a blank-line frame terminator, and classifies each frame.
Handler invocations are recorded in an `events` trace, in call order.
-/

/-- Events surfaced to the `readSseStream` handlers.  `error` carries the
payload after the `payload || \x7b message: "Erro." \x7d` defaulting; `done`
carries no payload for the `[DONE]` sentinel. -/
inductive SseEvent where
  | delta (text : String) : SseEvent
  | status (payload : Option Json) : SseEvent
  | meta (payload : Option Json) : SseEvent
  | sources (payload : Option Json) : SseEvent
  | artifact (payload : Option Json) : SseEvent
  | citations (payload : Option Json) : SseEvent
  | error (payload : Json) : SseEvent
  | done (payload : Option Json) : SseEvent
deriving Repr, Inhabited

/-- Balance scan of `splitLeadingJson`: depth over braces and brackets,
honouring string literals and escapes.  Returns the leading balanced slice
and the remainder.  `depth` never reaches zero inside the scan without an
immediate return, so `Nat` subtraction is exact here. -/
def splitScan : List Char → Nat → Bool → Bool → List Char → Option (List Char × List Char)
  | [], _, _, _, _ => none
  | c :: rest, depth, inString, esc, acc =>
    if inString then
      if esc then splitScan rest depth true false (acc ++ [c])
      else if c = '\\' then splitScan rest depth true true (acc ++ [c])
      else if c = '"' then splitScan rest depth false false (acc ++ [c])
      else splitScan rest depth true false (acc ++ [c])
    else if c = '"' then splitScan rest depth true false (acc ++ [c])
    else
      let d1 := if c = '{' || c = '[' then depth + 1 else depth
      let d2 := if c = '}' || c = ']' then d1 - 1 else d1
      if d2 = 0 then some (acc ++ [c], rest)
      else splitScan rest d2 false false (acc ++ [c])

/-- Source `splitLeadingJson`: skip leading whitespace, require `\x7b` or `[`,
then take the balanced leading JSON slice; the remainder after it is returned
as trailing text. -/
def splitLeadingJson (text : String) : Option (String × String) :=
  let s := text.data
  let afterWs := s.dropWhile isJsWs
  match afterWs with
  | [] => none
  | c :: _ =>
    if c = '{' || c = '[' then
      match splitScan afterWs 0 false false [] with
      | some (jsonChars, rest) => some (String.mk jsonChars, String.mk rest)
      | none => none
    else none

/-- Parse state of one `readSseStream` session, minus the rolling buffer:
current `event:` name, accumulated `data:` lines, the `sawTerminal` flag, and
the trace of handler invocations. -/
structure SseCore where
  event : String
  dataLines : List String
  sawTerminal : Bool
  events : List SseEvent
deriving Repr, Inhabited

/-- Initial parse state (`event = "message"`, nothing buffered). -/
def initSseCore : SseCore := { event := "message", dataLines := [], sawTerminal := false, events := [] }

/-- `String(payload.phase || "")` style field coercion: the field value if
truthy, otherwise the empty string. -/
def truthyFieldString (p : Option Json) (k : String) : String :=
  match p with
  | some j =>
    match j.getField k with
    | some v => if jsTruthy v then jsToString v else ""
    | none => ""
  | none => ""

/-- The delta-text resolution chain of `emit`: non-empty trailing text after a
JSON prefix wins; otherwise the string fields `text` / `t`, then any non-null
`t` / `delta` / `content` / `text` coerced with `String(...)`, else the raw
payload text. -/
def resolveDeltaText (dataRaw : String) (payload : Option Json) (restAfterJson : String) : String :=
  let rest := jsTrimStart restAfterJson
  if rest ≠ "" then rest
  else
    match payload with
    | none => dataRaw
    | some Json.null => dataRaw
    | some (Json.str s) => s
    | some p =>
      match p.getField "text" with
      | some (Json.str s) => s
      | _ =>
        match p.getField "t" with
        | some (Json.str s) => s
        | some v =>
          if v.isNull then
            match p.getField "delta" with
            | some w => if w.isNull then resolveDeltaTail dataRaw p else jsToString w
            | none => resolveDeltaTail dataRaw p
          else jsToString v
        | none =>
          match p.getField "delta" with
          | some w => if w.isNull then resolveDeltaTail dataRaw p else jsToString w
          | none => resolveDeltaTail dataRaw p
where
  /-- Tail of the chain: `content`, then non-string `text`, then the raw data. -/
  resolveDeltaTail (dataRaw : String) (p : Json) : String :=
    match p.getField "content" with
    | some w => if w.isNull then
        match p.getField "text" with
        | some v => if v.isNull then dataRaw else jsToString v
        | none => dataRaw
      else jsToString w
    | none =>
      match p.getField "text" with
      | some v => if v.isNull then dataRaw else jsToString v
      | none => dataRaw

/-- The default error payload `\x7b message: "Erro." \x7d` used when the
`error` event payload is falsy. -/
def defaultErrorPayload : Json := Json.obj [("message", Json.str "Erro.")]

/-- The `emit` closure of `readSseStream`: join the accumulated `data:`
lines with newlines, honour the `[DONE]` sentinel, split a leading JSON
value, resolve the effective event name and delta text, and dispatch. -/
def emitFrame (core : SseCore) : SseCore :=
  if core.dataLines = [] then core
  else
    let dataRaw := String.intercalate "\n" core.dataLines
    let core1 := { core with dataLines := ([] : List String) }
    let trimmed := jsTrim dataRaw
    if trimmed = "[DONE]" then
      { core1 with sawTerminal := true,
                   events := core1.events ++ [SseEvent.done none],
                   event := "message" }
    else
      let split := splitLeadingJson dataRaw
      let jsonPre : Option String := split.map Prod.fst
      let restAfterJson : String := (split.map Prod.snd).getD ""
      let payload : Option Json := safeJsonParse (jsonPre.getD dataRaw)
      let e1 := if core1.event = "" then "message" else core1.event
      let e2 := jsTrim e1
      let eventName0 := if e2 = "" then "message" else e2
      let eventName :=
        if eventName0 = "message" || eventName0 = "event" then
          match payload with
          | some (Json.obj fields) =>
            let tv : Option Json :=
              match fieldLookup fields "type" with
              | some v =>
                if jsTruthy v then some v else
                  match fieldLookup fields "event" with
                  | some w => if jsTruthy w then some w else none
                  | none => none
              | none =>
                match fieldLookup fields "event" with
                | some w => if jsTruthy w then some w else none
                | none => none
            let t := jsTrim (match tv with | some v => jsToString v | none => "")
            if t ≠ "" then t else eventName0
          | _ => eventName0
        else eventName0
      let deltaText := resolveDeltaText dataRaw payload restAfterJson
      let core2 :=
        if eventName = "delta" then
          { core1 with events := core1.events ++ [SseEvent.delta deltaText] }
        else if eventName = "status" then
          let isObjLike :=
            match payload with
            | some (Json.obj _) => true
            | some (Json.arr _) => true
            | _ => false
          let phase := jsToLower (truthyFieldString payload "phase")
          { core1 with events := core1.events ++ [SseEvent.status payload],
                       sawTerminal := core1.sawTerminal ||
                         (isObjLike && (phase = "done" || phase = "error")) }
        else if eventName = "meta" then
          { core1 with events := core1.events ++ [SseEvent.meta payload] }
        else if eventName = "sources" then
          { core1 with events := core1.events ++ [SseEvent.sources payload] }
        else if eventName = "artifact" then
          { core1 with events := core1.events ++ [SseEvent.artifact payload] }
        else if eventName = "citations" then
          { core1 with events := core1.events ++ [SseEvent.citations payload] }
        else if eventName = "error" then
          let p := match payload with
            | some v => if jsTruthy v then v else defaultErrorPayload
            | none => defaultErrorPayload
          { core1 with sawTerminal := true, events := core1.events ++ [SseEvent.error p] }
        else if eventName = "done" then
          { core1 with sawTerminal := true, events := core1.events ++ [SseEvent.done payload] }
        else
          let isPlainObj := match payload with | some (Json.obj _) => true | _ => false
          if deltaText != "" && !(isPlainObj && jsonPre.isSome) then
            { core1 with events := core1.events ++ [SseEvent.delta deltaText] }
          else core1
      { core2 with event := "message" }

/-- Drop a trailing carriage return from a line (`\r\n` framing). -/
def stripCr (l : List Char) : List Char :=
  if l.getLast? = some '\r' then l.dropLast else l

/-- Per-line dispatch of the read loop: a blank line emits the frame, an
`event:` line sets the pending event name, a `data:` line pushes its payload
after a `trimStart`, anything else (`id:`, `retry:`, comments) is ignored. -/
def processLine (line : List Char) (core : SseCore) : SseCore :=
  if line = [] then emitFrame core
  else if "event:".data.isPrefixOf line then
    let e := jsTrim (String.mk (line.drop 6))
    { core with event := if e = "" then "message" else e }
  else if "data:".data.isPrefixOf line then
    { core with dataLines := core.dataLines ++ [String.mk (jsTrimStartL (line.drop 5))] }
  else core

/-- Full parser state: parse core plus the rolling text buffer of decoded
characters not yet terminated by a newline. -/
structure SseState where
  core : SseCore
  buf : List Char
deriving Repr, Inhabited

/-- The buffer-draining loop of `readSseStream`, rendered character by
character: the source appends each decoded chunk to its buffer and then
repeatedly slices off the text before the first `\n`; here `pre` is the
newline-free unprocessed tail and the chunk is consumed one character at a
time, which performs the identical sequence of `processLine` calls. -/
def drainFrom (core : SseCore) (pre : List Char) : List Char → SseCore × List Char
  | [] => (core, pre)
  | c :: rest =>
    if c = '\n' then drainFrom (processLine (stripCr pre) core) [] rest
    else drainFrom core (pre ++ [c]) rest

/-- One `reader.read()` delivery: decode the chunk (modelled at character
level; the streaming `TextDecoder` makes byte-level splits invisible here)
and drain every complete line. -/
def feedChunk (st : SseState) (chunk : List Char) : SseState :=
  let r := drainFrom st.core st.buf chunk
  { core := r.1, buf := r.2 }

/-- End of stream: the source performs one final `emit()` for a frame whose
terminating blank line never arrived.  An unterminated final line still in
the buffer is discarded, as in the source. -/
def finishStream (st : SseState) : SseCore := emitFrame st.core

/-- Whole-stream run of `readSseStream` over a sequence of chunks. -/
def runSse (chunks : List (List Char)) : SseCore :=
  finishStream (chunks.foldl feedChunk { core := initSseCore, buf := [] })

/-! ## Conversation state, delta buffer and stream session
(source part_003: `streamAppend` 1836-1864, `flushStreamNow` 516-539,
`finalizeStreaming` 1871-1921, `finalizeStreamingInterrupted` 1923-1959,
`stopGenerating` 2481-2489, and the `sendMessage` streaming section
2107-2478).

`aborted`, `fallbackRequested` and `finalLog` are observation fields: they
record, respectively, the `currentAbortController.abort()` call, the moment
`runChatFallback` passes its guards and issues the single-shot `/chat`
request, and each finalization outcome at the point where the source
persists the conversation.  They are written exactly where the source
performs the corresponding side effect and are read only by theorems.
-/

/-- An assistant or user message of a conversation. -/
structure Msg where
  id : Nat
  content : String
  interrupted : Bool
  sources : List Json
  artifacts : List Json
deriving Repr, Inhabited

/-- A conversation: identity plus message log. -/
structure Conv where
  id : Nat
  msgs : List Msg
deriving Repr, Inhabited

/-- The live `streamingMsg` handle binding the session to its target
message (DOM node fields of the source handle are presentation only and
are not modelled). -/
structure StreamRef where
  convId : Nat
  msgId : Nat
  hasFirstChunk : Bool
  sources : List Json
  artifacts : List Json
deriving Repr, Inhabited

/-- Finalization outcomes recorded by the `finalLog` observation field. -/
inductive FinalKind where
  | ok : FinalKind
  | error : FinalKind
  | interrupted : FinalKind
deriving Repr, DecidableEq, Inhabited

/-- Mutable state touched by the streaming core. -/
structure AppState where
  conversations : List Conv
  streamingMsg : Option StreamRef
  streamBuffer : String
  streamFlushRaf : Bool
  emptyStreamDone : Bool
  watchdogFallback : Bool
  aborted : Bool
  fallbackRequested : Bool
  finalLog : List FinalKind
deriving Repr, Inhabited

/-- In-place mutation of the first list element matching `p`, as performed
by `list.find(...)` followed by assignment in the source. -/
def updateFirst (p : α → Bool) (f : α → α) : List α → List α
  | [] => []
  | x :: xs => if p x then f x :: xs else x :: updateFirst p f xs

/-- `conversations.find(c => c.id === cid)`. -/
def findConv (convs : List Conv) (cid : Nat) : Option Conv :=
  convs.find? (fun c => c.id == cid)

/-- `conv.messages.find(m => m.id === mid)`. -/
def findMsg (c : Conv) (mid : Nat) : Option Msg :=
  c.msgs.find? (fun m => m.id == mid)

/-- Lookup of a message through its conversation. -/
def getMsg (convs : List Conv) (cid mid : Nat) : Option Msg :=
  match findConv convs cid with
  | some c => findMsg c mid
  | none => none

/-- Mutation of the message found by `findConv` / `findMsg`; when either
lookup fails nothing changes, as in the source. -/
def mutateMsg (convs : List Conv) (cid mid : Nat) (f : Msg → Msg) : List Conv :=
  updateFirst (fun c => c.id == cid)
    (fun c => { c with msgs := updateFirst (fun m => m.id == mid) f c.msgs }) convs

/-- Source `flushStreamNow`: cancel any scheduled animation-frame flush and
synchronously move the buffered text into the bound message content. -/
def flushStreamNow (st : AppState) : AppState :=
  match st.streamingMsg with
  | none => st
  | some ref =>
    let st1 := { st with streamFlushRaf := false }
    if st1.streamBuffer = "" then st1
    else
      { st1 with
        conversations := mutateMsg st1.conversations ref.convId ref.msgId
          (fun m => { m with content := m.content ++ st1.streamBuffer }),
        streamBuffer := "" }

/-- Source `streamAppend`: mark the first chunk, append to the buffer, and
schedule at most one animation-frame flush. -/
def streamAppend (text : String) (st : AppState) : AppState :=
  match st.streamingMsg with
  | none => st
  | some ref =>
    let st1 := { st with
      streamingMsg := some { ref with hasFirstChunk := true },
      streamBuffer := st.streamBuffer ++ text }
    if st1.streamFlushRaf then st1 else { st1 with streamFlushRaf := true }

/-- The scheduled animation-frame callback of `streamAppend`. -/
def rafFlush (st : AppState) : AppState :=
  let st1 := { st with streamFlushRaf := false }
  match st1.streamingMsg with
  | none => st1
  | some ref =>
    if st1.streamBuffer = "" then st1
    else
      { st1 with
        conversations := mutateMsg st1.conversations ref.convId ref.msgId
          (fun m => { m with content := m.content ++ st1.streamBuffer }),
        streamBuffer := "" }

/-- Arguments of `finalizeStreaming`.  The `sources` argument is accepted
and ignored by the source (it always assigns `msg.sources = []`). -/
structure FinalizeArgs where
  ok : Bool := true
  errorMessage : Option Json := none
  sources : Option (List Json) := none
  artifacts : Option (List Json) := none

/-- `String(errorMessage || "Falha ao gerar resposta.")`. -/
def finalizeErrorText (em : Option Json) : String :=
  match em with
  | some v => if jsTruthy v then jsToString v else "Falha ao gerar resposta."
  | none => "Falha ao gerar resposta."

/-- Source `finalizeStreaming`: force a synchronous flush, then write the
final content (the error text replaces it when `ok` is false), clear the
sources, attach artifacts, detach the live session and persist. -/
def finalizeStreaming (args : FinalizeArgs) (st : AppState) : AppState :=
  match st.streamingMsg with
  | none => st
  | some ref =>
    let st1 := flushStreamNow st
    let finalArtifacts := match args.artifacts with
      | some l => l
      | none => ref.artifacts
    match findConv st1.conversations ref.convId with
    | none => { st1 with streamingMsg := none }
    | some conv =>
      match findMsg conv ref.msgId with
      | none => { st1 with streamingMsg := none }
      | some _ =>
        let convs2 := mutateMsg st1.conversations ref.convId ref.msgId (fun m =>
          let m1 := if args.ok then m
            else { m with content := finalizeErrorText args.errorMessage }
          let m2 := { m1 with sources := ([] : List Json) }
          if finalArtifacts.isEmpty then m2 else { m2 with artifacts := finalArtifacts })
        { st1 with conversations := convs2, streamingMsg := none,
                   finalLog := st1.finalLog ++ [if args.ok then FinalKind.ok else FinalKind.error] }

/-- Source `finalizeStreamingInterrupted`: force a synchronous flush, flag
the message interrupted, substitute the localized placeholder when no
content was ever received, detach and persist. -/
def finalizeStreamingInterrupted (st : AppState) : AppState :=
  match st.streamingMsg with
  | none => st
  | some ref =>
    let st1 := flushStreamNow st
    match findConv st1.conversations ref.convId with
    | none => { st1 with streamingMsg := none }
    | some conv =>
      match findMsg conv ref.msgId with
      | none => { st1 with streamingMsg := none }
      | some _ =>
        let convs2 := mutateMsg st1.conversations ref.convId ref.msgId (fun m =>
          let m1 := { m with interrupted := true }
          if jsTrim m1.content = "" then { m1 with content := "Geração interrompida." } else m1)
        { st1 with conversations := convs2, streamingMsg := none,
                   finalLog := st1.finalLog ++ [FinalKind.interrupted] }

/-- Source `stopGenerating` (user cancellation): abort the in-flight
transport and finalize as interrupted. -/
def stopGenerating (st : AppState) : AppState :=
  finalizeStreamingInterrupted { st with aborted := true }

/-- Source `setStreamingSources` with the `p?.items` projection already
applied by the `onSources` handler. -/
def setStreamingSources (items : Option Json) (st : AppState) : AppState :=
  match st.streamingMsg with
  | none => st
  | some ref =>
    let xs := match items with
      | some (Json.arr l) => l
      | _ => ([] : List Json)
    { st with streamingMsg := some { ref with sources := xs } }

/-- Source `pushStreamingArtifact`. -/
def pushStreamingArtifact (a : Json) (st : AppState) : AppState :=
  match st.streamingMsg with
  | none => st
  | some ref => { st with streamingMsg := some { ref with artifacts := ref.artifacts ++ [a] } }

/-- `x?.message || "Erro no streaming."` for an optional payload. -/
def statusMessageArg (p : Option Json) : Json :=
  match p with
  | some j =>
    (match j.getField "message" with
     | some v => if jsTruthy v then v else Json.str "Erro no streaming."
     | none => Json.str "Erro no streaming.")
  | none => Json.str "Erro no streaming."

/-- `e?.message || "Erro no streaming."` for the `error` event payload. -/
def errMessageArg (p : Json) : Json :=
  match p.getField "message" with
  | some v => if jsTruthy v then v else Json.str "Erro no streaming."
  | none => Json.str "Erro no streaming."

/-- The handler object `sendMessage` passes to `readSseStream` (lines
2360-2406): state changes of each handler; purely visual updates of the
`thinking`, `tool` and `answer` phases are identities here. -/
def handleSseEvent (st : AppState) (e : SseEvent) : AppState :=
  match e with
  | SseEvent.delta t => streamAppend t st
  | SseEvent.status p =>
    let phase := jsToLower (jsTrim (truthyFieldString p "phase"))
    if phase = "thinking" || phase = "tool" || phase = "answer" then st
    else if phase = "done" then
      let hasFirst := match st.streamingMsg with
        | some r => r.hasFirstChunk
        | none => false
      if hasFirst then finalizeStreaming { ok := true } st
      else { st with emptyStreamDone := true }
    else if phase = "error" then
      finalizeStreaming { ok := false, errorMessage := some (statusMessageArg p) } st
    else st
  | SseEvent.meta _ => st
  | SseEvent.sources p => setStreamingSources (p.bind (fun j => j.getField "items")) st
  | SseEvent.artifact p => pushStreamingArtifact (p.getD Json.null) st
  | SseEvent.citations _ => st
  | SseEvent.error p =>
    finalizeStreaming { ok := false, errorMessage := some (errMessageArg p) } st
  | SseEvent.done _ => finalizeStreaming { ok := true } st

/-! ## Recovery controller and the streaming section of `sendMessage`

The network is external: the outcome of the single-shot `/chat` fallback
request and the outcome of the streaming transport enter the model as data.
Endpoint re-resolution (`ensureBackendBaseOnline`) is part of issuing the
request and is absorbed into the recorded outcome.
-/

/-- Outcome of the single-shot `/chat` fallback request. -/
inductive FallbackOutcome where
  | ok (replyRaw : String) (sources : List Json) (artifacts : List Json) : FallbackOutcome
  | httpErr (status : Nat) (body : String) : FallbackOutcome
  | exn (emsg : String) (healthOk : Bool) : FallbackOutcome
deriving Repr, Inhabited

/-- Error text for a non-2xx fallback response. -/
def fallbackHttpErrText (status : Nat) (body : String) : String :=
  jsTrim ("Fallback /chat retornou " ++ toString status ++ ". " ++
    (if body = "" then "" else String.mk (body.data.take 240)))

/-- Error text for an exception in the fallback path, incorporating the
reachability probe result. -/
def fallbackExnText (base emsg : String) (healthOk : Bool) : String :=
  let hints := if healthOk then
      "O backend respondeu ao /health. Isso costuma ser bloqueio do navegador (CORS/mixed-content) ou um erro de rede momentâneo."
    else
      "Backend parece offline. Inicie com backend/run_dev.ps1 (porta 8000) e confirme /health."
  jsTrim ("Falha no fallback /chat (" ++ base ++ "). " ++ emsg) ++ "\n" ++ hints

/-- Source `runChatFallback` (lines 2136-2225): bail out when no session is
live or the first chunk already arrived; otherwise mark the fallback in
progress, abort the stream, issue the single-shot request and finalize from
its outcome.  Returns the source's Boolean result. -/
def runChatFallback (convId msgId : Nat) (userAskedForSources : Bool) (base : String)
    (fb : FallbackOutcome) (st : AppState) : Bool × AppState :=
  match st.streamingMsg with
  | none => (false, st)
  | some ref =>
    if ref.hasFirstChunk then (false, st)
    else
      let st1 := { st with watchdogFallback := true, aborted := true, fallbackRequested := true }
      match fb with
      | FallbackOutcome.httpErr status body =>
        (true, finalizeStreaming
          { ok := false, errorMessage := some (Json.str (fallbackHttpErrText status body)) } st1)
      | FallbackOutcome.ok replyRaw srcs arts =>
        let reply := jsTrim replyRaw
        if reply = "" then
          (true, finalizeStreaming
            { ok := false, errorMessage := some (Json.str "Fallback /chat retornou vazio.") } st1)
        else
          let convs2 := mutateMsg st1.conversations convId msgId (fun m => { m with content := reply })
          let st2 := { st1 with conversations := convs2 }
          let args : FinalizeArgs :=
            { ok := true, sources := some (if userAskedForSources then srcs else []),
              artifacts := some arts }
          (true, finalizeStreaming args st2)
      | FallbackOutcome.exn emsg healthOk =>
        (true, finalizeStreaming
          { ok := false, errorMessage := some (Json.str (fallbackExnText base emsg healthOk)) } st1)

/-- The cleanup after the read loop returns (lines 2428-2446): a completed
fallback suppresses it; an empty-done stream triggers the fallback; a live
session that saw no terminal event finalizes interrupted when content
arrived and as an error when none did. -/
def afterStreamLoop (convId msgId : Nat) (ua : Bool) (base : String)
    (fb : FallbackOutcome) (st : AppState) : AppState :=
  if st.watchdogFallback then st
  else if st.emptyStreamDone then (runChatFallback convId msgId ua base fb st).2
  else
    match st.streamingMsg with
    | some ref =>
      if ref.convId == convId then
        let contentNow := ((getMsg st.conversations convId msgId).map Msg.content).getD ""
        if jsTrim contentNow = "" then
          let args : FinalizeArgs :=
            { ok := false,
              errorMessage := some (Json.str "Stream finalizou sem resposta (possível reload do backend).") }
          finalizeStreaming args st
        else finalizeStreamingInterrupted st
      else st
    | none => st

/-- Outcome of the streaming transport, as observed by `sendMessage`. -/
inductive StreamTransport where
  | httpErr (status : Nat) (body : String) : StreamTransport
  | sse (events : List SseEvent) : StreamTransport
  | thrown (isAbort : Bool) (emsg : String) (healthOk : Bool) : StreamTransport
deriving Repr, Inhabited

/-- Error text of the non-2xx streaming response branch. -/
def serverStatusText (status : Nat) (body : String) : String :=
  jsTrim ("Servidor retornou " ++ toString status ++ ". " ++
    (if body = "" then "" else String.mk (body.data.take 240)))

/-- Error text of the catch-all transport failure branch. -/
def connectFailText (base emsg : String) (healthOk : Bool) : String :=
  let extra := if healthOk then
      "O backend respondeu ao /health. Isso costuma ser reinício do servidor (reload) ou bloqueio do navegador (CORS)."
    else
      "Backend parece offline. Inicie com backend/run_dev.ps1 (porta 8000)."
  jsTrim ("Falha ao conectar ao backend (" ++ base ++ "). " ++ emsg) ++ "\n" ++ extra

/-- The streaming section of `sendMessage` (lines 2314-2466): a non-2xx
response finalizes as an error; an event stream is dispatched to the
handlers and then to the post-loop cleanup; a thrown `AbortError` finalizes
interrupted unless the fallback is already in progress; any other exception
goes through `runChatFallback` and surfaces a connection error only when
that returned false. -/
def sendStreamPhase (convId msgId : Nat) (ua : Bool) (base : String)
    (tr : StreamTransport) (fb : FallbackOutcome) (st : AppState) : AppState :=
  match tr with
  | StreamTransport.httpErr status body =>
    finalizeStreaming
      { ok := false, errorMessage := some (Json.str (serverStatusText status body)) } st
  | StreamTransport.sse events =>
    afterStreamLoop convId msgId ua base fb (events.foldl handleSseEvent st)
  | StreamTransport.thrown isAbort emsg healthOk =>
    if isAbort then
      if st.watchdogFallback then st else finalizeStreamingInterrupted st
    else
      let r := runChatFallback convId msgId ua base fb st
      if r.1 then r.2
      else
        finalizeStreaming
          { ok := false, errorMessage := some (Json.str (connectFailText base emsg healthOk)) } r.2

/-- The single watchdog duration: `setTimeout(..., 12000)` (line 2355).  No
other timer observes the stream. -/
def WATCHDOG_MS : Nat := 12000

/-- Firing of the watchdog timer: it runs `runChatFallback` and nothing
else. -/
def watchdogFire (convId msgId : Nat) (ua : Bool) (base : String)
    (fb : FallbackOutcome) (st : AppState) : AppState :=
  (runChatFallback convId msgId ua base fb st).2

/-- End-to-end streaming session: parse the raw chunks, feed the handler
trace to the state, run the post-loop cleanup.  The handlers never feed
back into the parser, so parsing to completion first performs the same
mutations as the interleaved original. -/
def processServerStream (convId msgId : Nat) (ua : Bool) (base : String)
    (chunks : List (List Char)) (fb : FallbackOutcome) (st : AppState) : AppState :=
  sendStreamPhase convId msgId ua base (StreamTransport.sse (runSse chunks).events) fb st

/-- A freshly armed send: one conversation holding the target assistant
message (content empty unless given), live `streamingMsg` handle, empty
delta buffer, all control flags clear.  The target message of `mkLive`. -/
def mkLiveMsg (msgId : Nat) (content : String) : Msg :=
  { id := msgId, content := content, interrupted := false, sources := [], artifacts := [] }

/-- The conversation of `mkLive`. -/
def mkLiveConv (convId msgId : Nat) (content : String) : Conv :=
  { id := convId, msgs := [mkLiveMsg msgId content] }

/-- The live handle of `mkLive`. -/
def mkLiveRef (convId msgId : Nat) (hasFirst : Bool) : StreamRef :=
  { convId := convId, msgId := msgId, hasFirstChunk := hasFirst, sources := [], artifacts := [] }

/-- See the section comment: a freshly armed send. -/
def mkLive (convId msgId : Nat) (content : String) (hasFirst : Bool) : AppState :=
  { conversations := [mkLiveConv convId msgId content],
    streamingMsg := some (mkLiveRef convId msgId hasFirst),
    streamBuffer := "", streamFlushRaf := false, emptyStreamDone := false,
    watchdogFallback := false, aborted := false, fallbackRequested := false,
    finalLog := [] }

/-- In-order concatenation of a list of delta texts. -/
def concatList : List String → String
  | [] => ""
  | s :: rest => s ++ concatList rest

/-- N delta events appended in order through `streamAppend`. -/
def appendAll (ts : List String) (st : AppState) : AppState :=
  ts.foldl (fun s t => streamAppend t s) st

/-- Whether a fallback outcome produces a non-empty reply (the success
condition of `runChatFallback`). -/
def fbSucceeds : FallbackOutcome → Bool
  | FallbackOutcome.ok replyRaw _ _ => jsTrim replyRaw ≠ ""
  | _ => false

/-! ## Helper lemmas -/

theorem str_append_empty (s : String) : s ++ "" = s := by
  apply String.ext
  simp [String.data_append]

theorem str_empty_append (s : String) : "" ++ s = s := by
  apply String.ext
  simp [String.data_append]

theorem str_append_assoc (a b c : String) : a ++ b ++ c = a ++ (b ++ c) := by
  apply String.ext
  simp [String.data_append]

/-- The head surviving a `dropWhile` never satisfies the dropped predicate. -/
theorem head_dropWhile_not (p : α → Bool) (l : List α) :
    ∀ c, (l.dropWhile p).head? = some c → p c = false := by
  induction l with
  | nil => intro c h; simp [List.dropWhile] at h
  | cons x xs ih =>
    intro c h
    by_cases hx : p x = true
    · rw [List.dropWhile_cons_of_pos hx] at h
      exact ih c h
    · rw [List.dropWhile_cons_of_neg hx] at h
      simp at h
      subst h
      simpa using hx

/-! ## C9: the `[DONE]` sentinel runs before JSON parsing and dispatch -/

/-- C9: any frame whose joined `data:` lines trim to exactly `[DONE]` emits
`Done` and marks the stream terminal, before JSON parsing and event-name
dispatch — even when the frame carried an explicit `event:` name such as
`delta` or `error`. -/
theorem c9_sentinel_first (ev : String) (lines : List String) (s : Bool) (es : List SseEvent)
    (h : jsTrim (String.intercalate "\n" lines) = "[DONE]") :
    emitFrame { event := ev, dataLines := lines, sawTerminal := s, events := es } =
      { event := "message", dataLines := [], sawTerminal := true,
        events := es ++ [SseEvent.done none] } := by
  have hne : lines ≠ [] := by
    intro hnil
    subst hnil
    simp [String.intercalate] at h
    have : jsTrim "" = "" := by decide
    rw [this] at h
    exact absurd h (by decide)
  simp [emitFrame, hne, h]

/-- C9 witness: a frame declared `event: delta` whose data is ` [DONE] `
still terminates as `Done`. -/
theorem c9_witness :
    jsTrim (String.intercalate "\n" [" [DONE] "]) = "[DONE]" ∧
    emitFrame { event := "delta", dataLines := [" [DONE] "], sawTerminal := false, events := [] } =
      { event := "message", dataLines := [], sawTerminal := true,
        events := [SseEvent.done none] } :=
  ⟨by decide, c9_sentinel_first "delta" [" [DONE] "] false [] (by decide)⟩

/-! ## C10: `data:` payloads are stripped with `trimStart` -/

/-- C10: every `data:` line pushes the payload after the colon with all
leading whitespace removed (`trimStart`, the full JS `\s` class, not just
the single optional space of standard SSE framing), so no pushed payload
line can begin with a space or tab. -/
theorem c10_data_trimstart (line : List Char) (core : SseCore)
    (h : "data:".data.isPrefixOf line = true) :
    processLine line core =
      { core with dataLines := core.dataLines ++ [String.mk (jsTrimStartL (line.drop 5))] } ∧
    (∀ c, (jsTrimStartL (line.drop 5)).head? = some c → isJsWs c = false) := by
  have hpre : "data:".data <+: line := List.isPrefixOf_iff_prefix.mp h
  obtain ⟨t, ht⟩ := hpre
  have hd : "data:".data = ['d', 'a', 't', 'a', ':'] := rfl
  constructor
  · rw [← ht, hd]
    simp [processLine, List.isPrefixOf]
  · intro c hc
    exact head_dropWhile_not isJsWs (line.drop 5) c hc

/-- C10 witness: `data: \t hello` pushes `hello`; both leading spaces and
the tab are removed, not just one space. -/
theorem c10_witness :
    ("data:".data.isPrefixOf ("data:  \t hello").data = true) ∧
    processLine ("data:  \t hello").data initSseCore =
      { initSseCore with dataLines := [String.mk (jsTrimStartL (("data:  \t hello").data.drop 5))] } ∧
    String.mk (jsTrimStartL (("data:  \t hello").data.drop 5)) = "hello" := by
  refine ⟨by decide, (c10_data_trimstart ("data:  \t hello").data initSseCore (by decide)).1, by decide⟩

/-! ## C8: leading JSON with trailing text -/

/-- C8: a payload of a balanced leading JSON value immediately followed by
trailing text parses with the event name taken from the JSON `type` field
and the delta text equal to the non-empty remainder after the JSON prefix —
which takes priority over a `text` field inside the JSON. -/
theorem c8_leading_json_trailing_text :
    (runSse [("data: \x7b\"type\":\"delta\"\x7dHello world\n\n").data]).events =
      [SseEvent.delta "Hello world"] ∧
    (runSse [("data: \x7b\"type\":\"delta\",\"text\":\"IGNORED\"\x7dHello world\n\n").data]).events =
      [SseEvent.delta "Hello world"] ∧
    splitLeadingJson "\x7b\"type\":\"delta\"\x7dHello world" =
      some ("\x7b\"type\":\"delta\"\x7d", "Hello world") :=
  ⟨rfl, rfl, rfl⟩

/-! ## C3: chunk-split invariance of the frame parser -/

/-- Draining a concatenation equals draining the first part and then the
second from the leftover line state. -/
theorem drainFrom_append (x : List Char) :
    ∀ (core : SseCore) (pre : List Char) (y : List Char),
      drainFrom core pre (x ++ y) =
        drainFrom (drainFrom core pre x).1 (drainFrom core pre x).2 y := by
  induction x with
  | nil => intro core pre y; simp [drainFrom]
  | cons c rest ih =>
    intro core pre y
    by_cases h : c = '\n'
    · simp [drainFrom, h, ih]
    · simp [drainFrom, h, ih]

/-- Feeding a list of chunks equals feeding their concatenation at once. -/
theorem foldl_feedChunk_join (chunks : List (List Char)) :
    ∀ st : SseState, chunks.foldl feedChunk st = feedChunk st chunks.flatten := by
  induction chunks with
  | nil =>
    intro st
    simp [feedChunk, drainFrom]
  | cons c cs ih =>
    intro st
    simp only [List.foldl_cons, List.flatten_cons, ih, feedChunk, drainFrom_append]

/-- C3: feeding the parser the same character sequence split across
arbitrarily many chunk boundaries produces exactly the same state — and so
the same emitted events in the same order — as feeding it in one chunk; and
end of stream still performs one final emit for a frame whose terminating
blank line never arrived. -/
theorem c3_chunk_split_invariance (chunks : List (List Char)) :
    runSse chunks = runSse [chunks.flatten] ∧
    (runSse [("data: hi\n").data]).events = [SseEvent.delta "hi"] := by
  constructor
  · simp [runSse, foldl_feedChunk_join]
  · rfl

/-! ## State-machine lemmas -/

/-- `find?` after `updateFirst` with a predicate-preserving update. -/
theorem find?_updateFirst (p : α → Bool) (f : α → α) (l : List α)
    (hf : ∀ x, p x = true → p (f x) = true) :
    (updateFirst p f l).find? p = (l.find? p).map f := by
  induction l with
  | nil => rfl
  | cons x xs ih =>
    by_cases hx : p x = true
    · simp [updateFirst, hx, List.find?_cons, hf x hx]
    · have hx' : p x = false := by simpa using hx
      simp [updateFirst, hx', List.find?_cons, ih]

/-- Message lookup after a message mutation that keeps the identifier. -/
theorem getMsg_mutateMsg (convs : List Conv) (cid mid : Nat) (f : Msg → Msg)
    (hf : ∀ m, (f m).id = m.id) :
    getMsg (mutateMsg convs cid mid f) cid mid = (getMsg convs cid mid).map f := by
  unfold getMsg mutateMsg findConv
  rw [find?_updateFirst]
  · cases hc : convs.find? (fun c => c.id == cid) with
    | none => rfl
    | some c =>
      unfold findMsg
      simp only [Option.map_some']
      rw [find?_updateFirst]
      intro mm hmm
      rw [show (f mm).id = mm.id from hf mm]
      exact hmm
  · intro c hc
    exact hc

theorem flushStreamNow_flags (st : AppState) :
    (flushStreamNow st).streamingMsg = st.streamingMsg ∧
    (flushStreamNow st).finalLog = st.finalLog ∧
    (flushStreamNow st).aborted = st.aborted ∧
    (flushStreamNow st).fallbackRequested = st.fallbackRequested ∧
    (flushStreamNow st).watchdogFallback = st.watchdogFallback ∧
    (flushStreamNow st).emptyStreamDone = st.emptyStreamDone := by
  cases hsm : st.streamingMsg with
  | none => simp [flushStreamNow, hsm]
  | some ref =>
    by_cases hb : st.streamBuffer = "" <;> simp [flushStreamNow, hsm, hb]

theorem flushStreamNow_parts (st : AppState) (ref : StreamRef) (m : Msg)
    (hsm : st.streamingMsg = some ref)
    (hmsg : getMsg st.conversations ref.convId ref.msgId = some m) :
    getMsg (flushStreamNow st).conversations ref.convId ref.msgId =
      some { m with content := m.content ++ st.streamBuffer } ∧
    (flushStreamNow st).streamingMsg = some ref ∧
    (flushStreamNow st).streamBuffer = "" := by
  by_cases hb : st.streamBuffer = ""
  · refine ⟨?_, ?_, ?_⟩ <;> simp [flushStreamNow, hsm, hb, str_append_empty, hmsg]
  · refine ⟨?_, ?_, ?_⟩
    · simp only [flushStreamNow, hsm]
      rw [if_neg ?_]
      · show getMsg (mutateMsg _ _ _ _) _ _ = _
        rw [getMsg_mutateMsg]
        · rw [hmsg]; rfl
        · intro mm; rfl
      · exact hb
    · simp [flushStreamNow, hsm, hb]
    · simp [flushStreamNow, hsm, hb]


/-- `finalizeStreaming` preserves the control flags and always detaches
the live session. -/
theorem finalizeStreaming_flags (args : FinalizeArgs) (st : AppState) :
    (finalizeStreaming args st).aborted = st.aborted ∧
    (finalizeStreaming args st).fallbackRequested = st.fallbackRequested ∧
    (finalizeStreaming args st).watchdogFallback = st.watchdogFallback ∧
    (finalizeStreaming args st).emptyStreamDone = st.emptyStreamDone ∧
    (finalizeStreaming args st).streamingMsg = none := by
  cases hsm : st.streamingMsg with
  | none => simp [finalizeStreaming, hsm]
  | some ref =>
    obtain ⟨h1, h2, h3, h4, h5, h6⟩ := flushStreamNow_flags st
    simp only [finalizeStreaming, hsm]
    cases hc : findConv (flushStreamNow st).conversations ref.convId with
    | none => simp [hc, h2, h3, h4, h5, h6]
    | some c =>
      cases hm2 : findMsg c ref.msgId with
      | none => simp [hc, hm2, h2, h3, h4, h5, h6]
      | some mm => simp [hc, hm2, h2, h3, h4, h5, h6]


/-- `finalizeStreamingInterrupted` preserves the control flags and always
detaches the live session. -/
theorem finalizeInterrupted_flags (st : AppState) :
    (finalizeStreamingInterrupted st).aborted = st.aborted ∧
    (finalizeStreamingInterrupted st).fallbackRequested = st.fallbackRequested ∧
    (finalizeStreamingInterrupted st).watchdogFallback = st.watchdogFallback ∧
    (finalizeStreamingInterrupted st).emptyStreamDone = st.emptyStreamDone ∧
    (finalizeStreamingInterrupted st).streamingMsg = none := by
  cases hsm : st.streamingMsg with
  | none => simp [finalizeStreamingInterrupted, hsm]
  | some ref =>
    obtain ⟨h1, h2, h3, h4, h5, h6⟩ := flushStreamNow_flags st
    simp only [finalizeStreamingInterrupted, hsm]
    cases hc : findConv (flushStreamNow st).conversations ref.convId with
    | none => simp [hc, h2, h3, h4, h5, h6]
    | some c =>
      cases hm2 : findMsg c ref.msgId with
      | none => simp [hc, hm2, h2, h3, h4, h5, h6]
      | some mm => simp [hc, hm2, h2, h3, h4, h5, h6]


/-- Content written by `finalizeStreaming` on a live, bound session: the
flushed content when `ok`, the error text otherwise; the buffer is left
empty and the outcome is logged. -/
theorem finalizeStreaming_parts (args : FinalizeArgs) (st : AppState) (ref : StreamRef) (m : Msg)
    (hsm : st.streamingMsg = some ref)
    (hmsg : getMsg st.conversations ref.convId ref.msgId = some m)
    (hart : args.artifacts = none) (hrart : ref.artifacts = []) :
    getMsg (finalizeStreaming args st).conversations ref.convId ref.msgId =
      some { m with
        content := if args.ok then m.content ++ st.streamBuffer
                   else finalizeErrorText args.errorMessage,
        sources := ([] : List Json) } ∧
    (finalizeStreaming args st).streamBuffer = "" ∧
    (finalizeStreaming args st).finalLog =
      st.finalLog ++ [if args.ok then FinalKind.ok else FinalKind.error] := by
  obtain ⟨hg, hs, hbuf2⟩ := flushStreamNow_parts st ref m hsm hmsg
  obtain ⟨f1, f2, f3, f4, f5, f6⟩ := flushStreamNow_flags st
  cases hc : findConv (flushStreamNow st).conversations ref.convId with
  | none =>
    have : getMsg (flushStreamNow st).conversations ref.convId ref.msgId = none := by
      unfold getMsg
      rw [hc]
    rw [this] at hg
    exact absurd hg (by simp)
  | some c =>
    have hgm : getMsg (flushStreamNow st).conversations ref.convId ref.msgId =
        findMsg c ref.msgId := by
      unfold getMsg
      rw [hc]
    have hgu : findMsg c ref.msgId =
        some { m with content := m.content ++ st.streamBuffer } := by
      rw [← hgm]
      exact hg
    simp only [finalizeStreaming, hsm, hart, hrart, hc, hgu]
    refine ⟨?_, hbuf2, ?_⟩
    · rw [getMsg_mutateMsg]
      · rw [hg]
        cases hok : args.ok <;> simp [hok]
      · intro mm
        cases hok : args.ok <;> simp [hok]
    · rw [f2]


/-- Content written by `finalizeStreamingInterrupted` on a live, bound
session: the flushed content, or the localized placeholder when that trims
to nothing; the message is flagged interrupted. -/
theorem finalizeInterrupted_parts (st : AppState) (ref : StreamRef) (m : Msg)
    (hsm : st.streamingMsg = some ref)
    (hmsg : getMsg st.conversations ref.convId ref.msgId = some m) :
    getMsg (finalizeStreamingInterrupted st).conversations ref.convId ref.msgId =
      some { m with
        content := if jsTrim (m.content ++ st.streamBuffer) = "" then "Geração interrompida."
                   else m.content ++ st.streamBuffer,
        interrupted := true } ∧
    (finalizeStreamingInterrupted st).streamBuffer = "" ∧
    (finalizeStreamingInterrupted st).finalLog = st.finalLog ++ [FinalKind.interrupted] := by
  obtain ⟨hg, hs, hbuf2⟩ := flushStreamNow_parts st ref m hsm hmsg
  obtain ⟨f1, f2, f3, f4, f5, f6⟩ := flushStreamNow_flags st
  cases hc : findConv (flushStreamNow st).conversations ref.convId with
  | none =>
    have : getMsg (flushStreamNow st).conversations ref.convId ref.msgId = none := by
      unfold getMsg
      rw [hc]
    rw [this] at hg
    exact absurd hg (by simp)
  | some c =>
    have hgm : getMsg (flushStreamNow st).conversations ref.convId ref.msgId =
        findMsg c ref.msgId := by
      unfold getMsg
      rw [hc]
    have hgu : findMsg c ref.msgId =
        some { m with content := m.content ++ st.streamBuffer } := by
      rw [← hgm]
      exact hg
    simp only [finalizeStreamingInterrupted, hsm, hc, hgu]
    refine ⟨?_, hbuf2, ?_⟩
    · rw [getMsg_mutateMsg]
      · rw [hg]
        by_cases htr : jsTrim (m.content ++ st.streamBuffer) = "" <;> simp [htr]
      · intro mm
        by_cases htr : jsTrim mm.content = "" <;> simp [htr]
    · rw [f2]


/-- One `streamAppend` on a live session only extends the buffer and marks
the first chunk. -/
theorem streamAppend_some (t : String) (st : AppState) (ref : StreamRef)
    (hsm : st.streamingMsg = some ref) :
    (streamAppend t st).conversations = st.conversations ∧
    (streamAppend t st).streamBuffer = st.streamBuffer ++ t ∧
    (streamAppend t st).streamingMsg = some { ref with hasFirstChunk := true } ∧
    (streamAppend t st).finalLog = st.finalLog ∧
    (streamAppend t st).aborted = st.aborted ∧
    (streamAppend t st).fallbackRequested = st.fallbackRequested ∧
    (streamAppend t st).emptyStreamDone = st.emptyStreamDone ∧
    (streamAppend t st).watchdogFallback = st.watchdogFallback := by
  by_cases hraf : st.streamFlushRaf = true <;> simp [streamAppend, hsm, hraf]


/-- N appends on a live session extend the buffer by the in-order
concatenation of all texts and touch nothing else. -/
theorem appendAll_components (ts : List String) :
    ∀ (st : AppState) (ref : StreamRef), st.streamingMsg = some ref →
    (appendAll ts st).conversations = st.conversations ∧
    (appendAll ts st).streamBuffer = st.streamBuffer ++ concatList ts ∧
    ((appendAll ts st).streamingMsg = some ref ∨
      (appendAll ts st).streamingMsg = some { ref with hasFirstChunk := true }) ∧
    (appendAll ts st).finalLog = st.finalLog ∧
    (appendAll ts st).aborted = st.aborted ∧
    (appendAll ts st).fallbackRequested = st.fallbackRequested ∧
    (appendAll ts st).emptyStreamDone = st.emptyStreamDone ∧
    (appendAll ts st).watchdogFallback = st.watchdogFallback := by
  induction ts with
  | nil =>
    intro st ref hsm
    refine ⟨rfl, (str_append_empty _).symm, Or.inl hsm, rfl, rfl, rfl, rfl, rfl⟩
  | cons t ts ih =>
    intro st ref hsm
    obtain ⟨a1, a2, a3, a4, a5, a6, a7, a8⟩ := streamAppend_some t st ref hsm
    obtain ⟨b1, b2, b3, b4, b5, b6, b7, b8⟩ :=
      ih (streamAppend t st) { ref with hasFirstChunk := true } a3
    have hApp : appendAll (t :: ts) st = appendAll ts (streamAppend t st) := rfl
    rw [hApp]
    refine ⟨b1.trans a1, ?_, ?_, b4.trans a4, b5.trans a5, b6.trans a6, b7.trans a7, b8.trans a8⟩
    · rw [b2, a2, concatList, str_append_assoc]
    · rcases b3 with h | h
      · exact Or.inr h
      · exact Or.inr h


/-! ## C2: no-loss flush -/

/-- C2: for any sequence of N delta texts appended to the buffer followed by
one synchronous flush, the bound message content equals its previous content
concatenated with the exact in-order concatenation of all N texts — even
when all N arrive within one scheduling tick (no intervening frame flush);
and finalize in the ok and interrupted outcomes forces such a flush first,
so the same concatenation reaches the content and the buffer is left empty
at finalization. -/
theorem c2_no_loss_flush (st : AppState) (ref : StreamRef) (ts : List String) (m : Msg)
    (hsm : st.streamingMsg = some ref) (hbuf : st.streamBuffer = "")
    (hmsg : getMsg st.conversations ref.convId ref.msgId = some m)
    (hrart : ref.artifacts = []) :
    getMsg (flushStreamNow (appendAll ts st)).conversations ref.convId ref.msgId =
      some { m with content := m.content ++ concatList ts } ∧
    getMsg (finalizeStreaming {} (appendAll ts st)).conversations ref.convId ref.msgId =
      some { m with content := m.content ++ concatList ts, sources := ([] : List Json) } ∧
    (finalizeStreaming {} (appendAll ts st)).streamBuffer = "" ∧
    (jsTrim (m.content ++ concatList ts) ≠ "" →
      getMsg (finalizeStreamingInterrupted (appendAll ts st)).conversations ref.convId ref.msgId =
        some { m with content := m.content ++ concatList ts, interrupted := true }) ∧
    (finalizeStreamingInterrupted (appendAll ts st)).streamBuffer = "" ∧
    (finalizeStreaming { ok := false } (appendAll ts st)).streamBuffer = "" := by
  obtain ⟨a1, a2, a3, _, _, _, _, _⟩ := appendAll_components ts st ref hsm
  have hmsg' : getMsg (appendAll ts st).conversations ref.convId ref.msgId = some m := by
    rw [a1]
    exact hmsg
  have hbuf' : (appendAll ts st).streamBuffer = concatList ts := by
    rw [a2, hbuf, str_empty_append]
  rcases a3 with h3 | h3 <;>
  · obtain ⟨p1, p2, p3⟩ := flushStreamNow_parts (appendAll ts st) _ m h3 hmsg'
    obtain ⟨q1, q2, q3⟩ := finalizeStreaming_parts {} (appendAll ts st) _ m h3 hmsg' rfl hrart
    obtain ⟨r1, r2, r3⟩ := finalizeInterrupted_parts (appendAll ts st) _ m h3 hmsg'
    obtain ⟨e1, e2, e3⟩ := finalizeStreaming_parts { ok := false } (appendAll ts st) _ m h3 hmsg' rfl hrart
    refine ⟨?_, ?_, q2, ?_, r2, e2⟩
    · rw [p1, hbuf']
    · rw [q1, hbuf']
      simp
    · intro htr
      rw [r1, hbuf', if_neg htr]


/-- C2 witness: three deltas in one tick flush to exactly their
concatenation. -/
theorem c2_witness :
    (mkLive 1 2 "" false).streamingMsg = some (mkLiveRef 1 2 false) ∧
    ((getMsg (flushStreamNow (appendAll ["He", "llo ", "world"] (mkLive 1 2 "" false))).conversations
        1 2).map Msg.content) = some "Hello world" := by
  refine ⟨rfl, ?_⟩
  have h := (c2_no_loss_flush (mkLive 1 2 "" false) (mkLiveRef 1 2 false) ["He", "llo ", "world"]
    (mkLiveMsg 2 "") rfl rfl rfl rfl).1
  exact (congrArg (Option.map Msg.content) h).trans rfl


/-! ## C5: a finalized session is terminal -/

/-- C5: once no session is live (the state after any finalization), every
further append and finalize attempt is a no-op, no event of any kind
mutates conversation data, finalization always detaches the session, and
finalize is idempotent. -/
theorem c5_finalized_terminal (st st2 : AppState) (t : String) (e : SseEvent)
    (args args2 : FinalizeArgs) (h : st.streamingMsg = none) :
    streamAppend t st = st ∧
    finalizeStreaming args st = st ∧
    finalizeStreamingInterrupted st = st ∧
    (handleSseEvent st e).conversations = st.conversations ∧
    (finalizeStreaming args2 st2).streamingMsg = none ∧
    (finalizeStreamingInterrupted st2).streamingMsg = none ∧
    finalizeStreaming args (finalizeStreaming args2 st2) = finalizeStreaming args2 st2 ∧
    finalizeStreamingInterrupted (finalizeStreamingInterrupted st2) =
      finalizeStreamingInterrupted st2 := by
  have hIdA : ∀ (s : AppState) (t2 : String), s.streamingMsg = none → streamAppend t2 s = s := by
    intro s t2 hs
    simp [streamAppend, hs]
  have hIdF : ∀ (s : AppState) (a : FinalizeArgs), s.streamingMsg = none →
      finalizeStreaming a s = s := by
    intro s a hs
    simp [finalizeStreaming, hs]
  have hIdI : ∀ (s : AppState), s.streamingMsg = none → finalizeStreamingInterrupted s = s := by
    intro s hs
    simp [finalizeStreamingInterrupted, hs]
  have hFn := (finalizeStreaming_flags args2 st2).2.2.2.2
  have hIn := (finalizeInterrupted_flags st2).2.2.2.2
  refine ⟨hIdA st t h, hIdF st args h, hIdI st h, ?_, hFn, hIn, hIdF _ args hFn, hIdI _ hIn⟩
  cases e with
  | delta t2 =>
    simp only [handleSseEvent]
    rw [hIdA st t2 h]
  | status p =>
    simp only [handleSseEvent]
    split
    · rfl
    · split
      · simp [h]
      · split
        · rw [hIdF st _ h]
        · rfl
  | meta p => rfl
  | sources p => simp [handleSseEvent, setStreamingSources, h]
  | artifact p => simp [handleSseEvent, pushStreamingArtifact, h]
  | citations p => rfl
  | error p =>
    simp only [handleSseEvent]
    rw [hIdF st _ h]
  | done p =>
    simp only [handleSseEvent]
    rw [hIdF st _ h]


/-! ## C6: cancellation preserves partial text -/

/-- C6: cancelling a live session after appending text finalizes it as
interrupted with the appended text preserved (including still-buffered
text); when the accumulated content trims to nothing the localized
placeholder is substituted instead of leaving the message empty. -/
theorem c6_cancel_keeps_partial_text (st : AppState) (ref : StreamRef) (t : String) (m : Msg)
    (hsm : st.streamingMsg = some ref) (hbuf : st.streamBuffer = "")
    (hmsg : getMsg st.conversations ref.convId ref.msgId = some m) :
    getMsg (stopGenerating (streamAppend t st)).conversations ref.convId ref.msgId =
      some { m with
        content := if jsTrim (m.content ++ t) = "" then "Geração interrompida." else m.content ++ t,
        interrupted := true } ∧
    (stopGenerating (streamAppend t st)).aborted = true ∧
    (stopGenerating (streamAppend t st)).streamingMsg = none := by
  obtain ⟨a1, a2, a3, _, _, _, _, _⟩ := streamAppend_some t st ref hsm
  have hs2 : ({ streamAppend t st with aborted := true } : AppState).streamingMsg =
      some { ref with hasFirstChunk := true } := a3
  have hm2 : getMsg ({ streamAppend t st with aborted := true } : AppState).conversations
      ref.convId ref.msgId = some m := by
    show getMsg (streamAppend t st).conversations ref.convId ref.msgId = some m
    rw [a1]
    exact hmsg
  have hbf : ({ streamAppend t st with aborted := true } : AppState).streamBuffer = t := by
    show (streamAppend t st).streamBuffer = t
    rw [a2, hbuf, str_empty_append]
  obtain ⟨r1, r2, r3⟩ :=
    finalizeInterrupted_parts { streamAppend t st with aborted := true } _ m hs2 hm2
  refine ⟨?_, ?_, ?_⟩
  · show getMsg (finalizeStreamingInterrupted _).conversations _ _ = _
    rw [r1, hbf]
  · show (finalizeStreamingInterrupted _).aborted = true
    rw [(finalizeInterrupted_flags _).1]
  · exact (finalizeInterrupted_flags _).2.2.2.2


/-! ## C7: watchdog fallback guards -/

/-- `runChatFallback` refuses to act once the first chunk has arrived. -/
theorem runChatFallback_skips (st : AppState) (ref : StreamRef) (cid mid : Nat)
    (ua : Bool) (base : String) (fb : FallbackOutcome)
    (hsm : st.streamingMsg = some ref) (hfc : ref.hasFirstChunk = true) :
    runChatFallback cid mid ua base fb st = (false, st) := by
  simp [runChatFallback, hsm, hfc]


/-- Before the first chunk, `runChatFallback` aborts the stream, marks the
fallback in progress, and issues the single-shot request. -/
theorem runChatFallback_fires (st : AppState) (ref : StreamRef) (cid mid : Nat)
    (ua : Bool) (base : String) (fb : FallbackOutcome)
    (hsm : st.streamingMsg = some ref) (hfc : ref.hasFirstChunk = false) :
    (runChatFallback cid mid ua base fb st).1 = true ∧
    (runChatFallback cid mid ua base fb st).2.aborted = true ∧
    (runChatFallback cid mid ua base fb st).2.fallbackRequested = true ∧
    (runChatFallback cid mid ua base fb st).2.watchdogFallback = true := by
  have flag1 : ∀ (a : FinalizeArgs) (sx : AppState),
      (finalizeStreaming a sx).aborted = sx.aborted :=
    fun a sx => (finalizeStreaming_flags a sx).1
  have flag2 : ∀ (a : FinalizeArgs) (sx : AppState),
      (finalizeStreaming a sx).fallbackRequested = sx.fallbackRequested :=
    fun a sx => (finalizeStreaming_flags a sx).2.1
  have flag3 : ∀ (a : FinalizeArgs) (sx : AppState),
      (finalizeStreaming a sx).watchdogFallback = sx.watchdogFallback :=
    fun a sx => (finalizeStreaming_flags a sx).2.2.1
  cases fb with
  | ok replyRaw srcs arts =>
    by_cases hr : jsTrim replyRaw = "" <;>
      simp [runChatFallback, hsm, hfc, hr, flag1, flag2, flag3]
  | httpErr status body =>
    simp [runChatFallback, hsm, hfc, flag1, flag2, flag3]
  | exn emsg healthOk =>
    simp [runChatFallback, hsm, hfc, flag1, flag2, flag3]


/-- C7: a single fixed-duration watchdog timer is started; firing before
any delta aborts the transport and issues the fallback request, while a
session whose first delta already arrived is never aborted or replaced by
the watchdog — its guard reads only `hasFirstChunk`, never a byte rate. -/
theorem c7_watchdog_first_chunk_only (st : AppState) (ref : StreamRef) (cid mid : Nat)
    (ua : Bool) (base : String) (fb : FallbackOutcome)
    (hsm : st.streamingMsg = some ref) :
    (ref.hasFirstChunk = true →
      runChatFallback cid mid ua base fb st = (false, st) ∧
      watchdogFire cid mid ua base fb st = st) ∧
    (ref.hasFirstChunk = false →
      (watchdogFire cid mid ua base fb st).aborted = true ∧
      (watchdogFire cid mid ua base fb st).fallbackRequested = true ∧
      (watchdogFire cid mid ua base fb st).watchdogFallback = true ∧
      (runChatFallback cid mid ua base fb st).1 = true) ∧
    WATCHDOG_MS = 12000 := by
  refine ⟨?_, ?_, rfl⟩
  · intro hfc
    have hrun := runChatFallback_skips st ref cid mid ua base fb hsm hfc
    exact ⟨hrun, by simp [watchdogFire, hrun]⟩
  · intro hfc
    obtain ⟨g1, g2, g3, g4⟩ := runChatFallback_fires st ref cid mid ua base fb hsm hfc
    exact ⟨g2, g3, g4, g1⟩


/-- C5 witness: with the session detached, an append is a no-op and
finalize detaches. -/
theorem c5_witness :
    ({ mkLive 1 2 "" false with streamingMsg := none } : AppState).streamingMsg = none ∧
    streamAppend "MORE" { mkLive 1 2 "" false with streamingMsg := none } =
      { mkLive 1 2 "" false with streamingMsg := none } ∧
    (finalizeStreaming {} (mkLive 1 2 "" false)).streamingMsg = none := by
  refine ⟨rfl, ?_, ?_⟩
  · exact (c5_finalized_terminal { mkLive 1 2 "" false with streamingMsg := none }
      (mkLive 1 2 "" false) "MORE" (SseEvent.delta "x") {} {} rfl).1
  · exact (c5_finalized_terminal { mkLive 1 2 "" false with streamingMsg := none }
      (mkLive 1 2 "" false) "MORE" (SseEvent.delta "x") {} {} rfl).2.2.2.2.1


/-- C6 witness: appending "Hello" then cancelling preserves "Hello" and
sets the interrupted flag; cancelling with no content yields the
placeholder. -/
theorem c6_witness :
    (mkLive 1 2 "" false).streamingMsg = some (mkLiveRef 1 2 false) ∧
    ((getMsg (stopGenerating (streamAppend "Hello" (mkLive 1 2 "" false))).conversations 1 2).map
      Msg.content) = some "Hello" ∧
    ((getMsg (stopGenerating (streamAppend "Hello" (mkLive 1 2 "" false))).conversations 1 2).map
      Msg.interrupted) = some true ∧
    ((getMsg (stopGenerating (streamAppend "" (mkLive 1 2 "" false))).conversations 1 2).map
      Msg.content) = some "Geração interrompida." := by
  refine ⟨rfl, ?_, ?_, ?_⟩
  · have h := (c6_cancel_keeps_partial_text (mkLive 1 2 "" false) (mkLiveRef 1 2 false) "Hello"
      (mkLiveMsg 2 "") rfl rfl rfl).1
    exact (congrArg (Option.map Msg.content) h).trans (by rfl)
  · have h := (c6_cancel_keeps_partial_text (mkLive 1 2 "" false) (mkLiveRef 1 2 false) "Hello"
      (mkLiveMsg 2 "") rfl rfl rfl).1
    exact (congrArg (Option.map Msg.interrupted) h).trans (by rfl)
  · have h := (c6_cancel_keeps_partial_text (mkLive 1 2 "" false) (mkLiveRef 1 2 false) ""
      (mkLiveMsg 2 "") rfl rfl rfl).1
    exact (congrArg (Option.map Msg.content) h).trans (by rfl)


/-- C7 witness: the watchdog guard at concrete armed and streaming
sessions. -/
theorem c7_witness :
    (mkLive 1 2 "Hi" true).streamingMsg = some (mkLiveRef 1 2 true) ∧
    runChatFallback 1 2 false "b" (FallbackOutcome.ok "X" [] []) (mkLive 1 2 "Hi" true) =
      (false, mkLive 1 2 "Hi" true) ∧
    (watchdogFire 1 2 false "b" (FallbackOutcome.ok "X" [] []) (mkLive 1 2 "" false)).aborted = true ∧
    (watchdogFire 1 2 false "b" (FallbackOutcome.ok "X" [] []) (mkLive 1 2 "" false)).fallbackRequested =
      true := by
  refine ⟨rfl, ?_, ?_, ?_⟩
  · exact ((c7_watchdog_first_chunk_only (mkLive 1 2 "Hi" true) (mkLiveRef 1 2 true) 1 2 false "b"
      (FallbackOutcome.ok "X" [] []) rfl).1 rfl).1
  · exact ((c7_watchdog_first_chunk_only (mkLive 1 2 "" false) (mkLiveRef 1 2 false) 1 2 false "b"
      (FallbackOutcome.ok "X" [] []) rfl).2.1 rfl).1
  · exact ((c7_watchdog_first_chunk_only (mkLive 1 2 "" false) (mkLiveRef 1 2 false) 1 2 false "b"
      (FallbackOutcome.ok "X" [] []) rfl).2.1 rfl).2.1


/-- The outcome recorded by `finalizeStreaming` on a live, bound session,
for arbitrary arguments. -/
theorem finalizeStreaming_finalLog (args : FinalizeArgs) (st : AppState) (ref : StreamRef) (m : Msg)
    (hsm : st.streamingMsg = some ref)
    (hmsg : getMsg st.conversations ref.convId ref.msgId = some m) :
    (finalizeStreaming args st).finalLog =
      st.finalLog ++ [if args.ok then FinalKind.ok else FinalKind.error] := by
  obtain ⟨hg, hs, hbuf2⟩ := flushStreamNow_parts st ref m hsm hmsg
  have f2 := (flushStreamNow_flags st).2.1
  cases hc : findConv (flushStreamNow st).conversations ref.convId with
  | none =>
    have : getMsg (flushStreamNow st).conversations ref.convId ref.msgId = none := by
      unfold getMsg
      rw [hc]
    rw [this] at hg
    exact absurd hg (by simp)
  | some c =>
    have hgm : getMsg (flushStreamNow st).conversations ref.convId ref.msgId =
        findMsg c ref.msgId := by
      unfold getMsg
      rw [hc]
    have hgu : findMsg c ref.msgId =
        some { m with content := m.content ++ st.streamBuffer } := by
      rw [← hgm]
      exact hg
    simp only [finalizeStreaming, hsm, hc, hgu]
    rw [f2]


/-! ## C1: empty terminal stream and the fallback

The claim groups three terminal forms — `Status(done)`, a `done` event and
the `[DONE]` sentinel.  The source treats only `Status(done)` specially
(`emptyStreamDone`); the `onDone` handler finalizes `ok` unconditionally.
-/

/-- C1 counterexample: a stream consisting solely of the `[DONE]` sentinel,
with zero Delta events on an armed session, finalizes the session `ok`
directly and no fallback request is ever attempted — contradicting the
claim for the sentinel (and, equally, the `done` event) terminal form. -/
theorem c1_counterexample :
    (processServerStream 1 2 false "b" [("data: [DONE]\n\n").data]
      (FallbackOutcome.ok "X" [] []) (mkLive 1 2 "" false)).finalLog = [FinalKind.ok] ∧
    (processServerStream 1 2 false "b" [("data: [DONE]\n\n").data]
      (FallbackOutcome.ok "X" [] []) (mkLive 1 2 "" false)).fallbackRequested = false ∧
    (runSse [("data: [DONE]\n\n").data]).events = [SseEvent.done none] ∧
    (mkLive 1 2 "" false).streamingMsg = some (mkLiveRef 1 2 false) ∧
    (mkLiveRef 1 2 false).hasFirstChunk = false :=
  ⟨rfl, rfl, rfl, rfl, rfl⟩


/-- C1 amended: only a `Status` event with phase `done` arriving with zero
prior deltas avoids direct `ok` finalization (the handler only records
`emptyStreamDone`) and leads to a fallback attempt after the read loop; a
bare `done` event (or the `[DONE]` sentinel, which emits the same event)
finalizes `ok` directly even with zero deltas, with no fallback. -/
theorem c1_amended_empty_done (fb : FallbackOutcome) (ua : Bool) (base : String) :
    (List.foldl handleSseEvent (mkLive 1 2 "" false)
        [SseEvent.status (some (Json.obj [("phase", Json.str "done")]))]).finalLog = [] ∧
    (List.foldl handleSseEvent (mkLive 1 2 "" false)
        [SseEvent.status (some (Json.obj [("phase", Json.str "done")]))]).emptyStreamDone = true ∧
    (sendStreamPhase 1 2 ua base
        (StreamTransport.sse [SseEvent.status (some (Json.obj [("phase", Json.str "done")]))])
        fb (mkLive 1 2 "" false)).fallbackRequested = true ∧
    (sendStreamPhase 1 2 ua base (StreamTransport.sse [SseEvent.done none]) fb
        (mkLive 1 2 "" false)).finalLog = [FinalKind.ok] ∧
    (sendStreamPhase 1 2 ua base (StreamTransport.sse [SseEvent.done none]) fb
        (mkLive 1 2 "" false)).fallbackRequested = false := by
  refine ⟨rfl, rfl, ?_, rfl, rfl⟩
  show (runChatFallback 1 2 ua base fb
      ({ mkLive 1 2 "" false with emptyStreamDone := true } : AppState)).2.fallbackRequested = true
  exact (runChatFallback_fires _ (mkLiveRef 1 2 false) 1 2 ua base fb rfl rfl).2.2.1


/-! ## C4: transport failures and the fallback -/

/-- C4 counterexample: a non-2xx streaming response (502) on an armed
session surfaces an error to the user immediately — no fallback request is
attempted although the fallback would have succeeded ("X" is a non-empty
reply) — contradicting the claim that every non-2xx status triggers the
fallback and that an error is surfaced only if the fallback itself fails. -/
theorem c4_counterexample :
    (sendStreamPhase 1 2 false "b" (StreamTransport.httpErr 502 "")
      (FallbackOutcome.ok "X" [] []) (mkLive 1 2 "" false)).fallbackRequested = false ∧
    (sendStreamPhase 1 2 false "b" (StreamTransport.httpErr 502 "")
      (FallbackOutcome.ok "X" [] []) (mkLive 1 2 "" false)).finalLog = [FinalKind.error] ∧
    ((getMsg (sendStreamPhase 1 2 false "b" (StreamTransport.httpErr 502 "")
      (FallbackOutcome.ok "X" [] []) (mkLive 1 2 "" false)).conversations 1 2).map Msg.content) =
      some "Servidor retornou 502." ∧
    fbSucceeds (FallbackOutcome.ok "X" [] []) = true :=
  ⟨rfl, rfl, rfl, rfl⟩


/-- C4 amended: a thrown non-abort transport exception with no delta yet
received triggers the single-shot fallback, and an error is surfaced only
if that fallback fails; but a non-2xx streaming response finalizes as an
error immediately with no fallback attempt, and a transport exception
after the first delta also surfaces an error without attempting the
fallback. -/
theorem c4_amended_fallback_guards (fb : FallbackOutcome) (ua : Bool) (base emsg : String)
    (hOk : Bool) (status : Nat) (body : String) :
    (sendStreamPhase 1 2 ua base (StreamTransport.thrown false emsg hOk) fb
        (mkLive 1 2 "" false)).fallbackRequested = true ∧
    (sendStreamPhase 1 2 ua base (StreamTransport.thrown false emsg hOk) fb
        (mkLive 1 2 "" false)).finalLog =
      [if fbSucceeds fb then FinalKind.ok else FinalKind.error] ∧
    (sendStreamPhase 1 2 ua base (StreamTransport.httpErr status body) fb
        (mkLive 1 2 "" false)).fallbackRequested = false ∧
    (sendStreamPhase 1 2 ua base (StreamTransport.httpErr status body) fb
        (mkLive 1 2 "" false)).finalLog = [FinalKind.error] ∧
    (sendStreamPhase 1 2 ua base (StreamTransport.thrown false emsg hOk) fb
        (mkLive 1 2 "Hi" true)).fallbackRequested = false ∧
    (sendStreamPhase 1 2 ua base (StreamTransport.thrown false emsg hOk) fb
        (mkLive 1 2 "Hi" true)).finalLog = [FinalKind.error] := by
  obtain ⟨g1, g2, g3, g4⟩ :=
    runChatFallback_fires (mkLive 1 2 "" false) (mkLiveRef 1 2 false) 1 2 ua base fb rfl rfl
  have hredA : sendStreamPhase 1 2 ua base (StreamTransport.thrown false emsg hOk) fb
      (mkLive 1 2 "" false) = (runChatFallback 1 2 ua base fb (mkLive 1 2 "" false)).2 := by
    simp only [sendStreamPhase, g1]
    simp
  have hskip := runChatFallback_skips (mkLive 1 2 "Hi" true) (mkLiveRef 1 2 true) 1 2 ua base fb
    rfl rfl
  have hredC : sendStreamPhase 1 2 ua base (StreamTransport.thrown false emsg hOk) fb
      (mkLive 1 2 "Hi" true) =
      finalizeStreaming
        { ok := false, errorMessage := some (Json.str (connectFailText base emsg hOk)) }
        (mkLive 1 2 "Hi" true) := by
    simp only [sendStreamPhase, hskip]
    simp
  refine ⟨?_, ?_, ?_, ?_, ?_, ?_⟩
  · rw [hredA]
    exact g3
  · rw [hredA]
    cases fb with
    | httpErr status2 body2 =>
      rw [show (runChatFallback 1 2 ua base (FallbackOutcome.httpErr status2 body2)
          (mkLive 1 2 "" false)).2 =
          finalizeStreaming
            { ok := false, errorMessage := some (Json.str (fallbackHttpErrText status2 body2)) }
            { mkLive 1 2 "" false with
                watchdogFallback := true, aborted := true, fallbackRequested := true } from rfl]
      rw [finalizeStreaming_finalLog
        { ok := false, errorMessage := some (Json.str (fallbackHttpErrText status2 body2)) }
        { mkLive 1 2 "" false with
            watchdogFallback := true, aborted := true, fallbackRequested := true }
        (mkLiveRef 1 2 false) (mkLiveMsg 2 "") rfl rfl]
      rfl
    | exn e2 h2 =>
      rw [show (runChatFallback 1 2 ua base (FallbackOutcome.exn e2 h2)
          (mkLive 1 2 "" false)).2 =
          finalizeStreaming
            { ok := false, errorMessage := some (Json.str (fallbackExnText base e2 h2)) }
            { mkLive 1 2 "" false with
                watchdogFallback := true, aborted := true, fallbackRequested := true } from rfl]
      rw [finalizeStreaming_finalLog
        { ok := false, errorMessage := some (Json.str (fallbackExnText base e2 h2)) }
        { mkLive 1 2 "" false with
            watchdogFallback := true, aborted := true, fallbackRequested := true }
        (mkLiveRef 1 2 false) (mkLiveMsg 2 "") rfl rfl]
      rfl
    | ok replyRaw srcs arts =>
      rw [show (runChatFallback 1 2 ua base (FallbackOutcome.ok replyRaw srcs arts)
          (mkLive 1 2 "" false)) =
          (if jsTrim replyRaw = "" then
            (true, finalizeStreaming
              { ok := false, errorMessage := some (Json.str "Fallback /chat retornou vazio.") }
              { mkLive 1 2 "" false with
                  watchdogFallback := true, aborted := true, fallbackRequested := true })
          else
            (true, finalizeStreaming
              { ok := true, sources := some (if ua then srcs else []), artifacts := some arts }
              { mkLive 1 2 "" false with
                  watchdogFallback := true, aborted := true, fallbackRequested := true,
                  conversations := mutateMsg
                    ({ mkLive 1 2 "" false with
                        watchdogFallback := true, aborted := true,
                        fallbackRequested := true } : AppState).conversations 1 2
                    (fun m => { m with content := jsTrim replyRaw }) })) from rfl]
      by_cases hr : jsTrim replyRaw = ""
      · rw [if_pos hr]
        rw [show ((true, finalizeStreaming
            { ok := false, errorMessage := some (Json.str "Fallback /chat retornou vazio.") }
            { mkLive 1 2 "" false with
                watchdogFallback := true, aborted := true, fallbackRequested := true }) :
            Bool × AppState).2 =
            finalizeStreaming
              { ok := false, errorMessage := some (Json.str "Fallback /chat retornou vazio.") }
              { mkLive 1 2 "" false with
                  watchdogFallback := true, aborted := true, fallbackRequested := true } from rfl]
        rw [finalizeStreaming_finalLog
          { ok := false, errorMessage := some (Json.str "Fallback /chat retornou vazio.") }
          { mkLive 1 2 "" false with
              watchdogFallback := true, aborted := true, fallbackRequested := true }
          (mkLiveRef 1 2 false) (mkLiveMsg 2 "") rfl rfl]
        simp [fbSucceeds, hr, mkLive]
      · rw [if_neg hr]
        have hmsg2 : getMsg
            ({ mkLive 1 2 "" false with
                watchdogFallback := true, aborted := true, fallbackRequested := true,
                conversations := mutateMsg
                  ({ mkLive 1 2 "" false with
                      watchdogFallback := true, aborted := true,
                      fallbackRequested := true } : AppState).conversations 1 2
                  (fun m => { m with content := jsTrim replyRaw }) } : AppState).conversations
            (mkLiveRef 1 2 false).convId (mkLiveRef 1 2 false).msgId =
            some { mkLiveMsg 2 "" with content := jsTrim replyRaw } := rfl
        rw [show ((true, finalizeStreaming
            { ok := true, sources := some (if ua then srcs else []), artifacts := some arts }
            { mkLive 1 2 "" false with
                watchdogFallback := true, aborted := true, fallbackRequested := true,
                conversations := mutateMsg
                  ({ mkLive 1 2 "" false with
                      watchdogFallback := true, aborted := true,
                      fallbackRequested := true } : AppState).conversations 1 2
                  (fun m => { m with content := jsTrim replyRaw }) }) : Bool × AppState).2 =
            finalizeStreaming
              { ok := true, sources := some (if ua then srcs else []), artifacts := some arts }
              { mkLive 1 2 "" false with
                  watchdogFallback := true, aborted := true, fallbackRequested := true,
                  conversations := mutateMsg
                    ({ mkLive 1 2 "" false with
                        watchdogFallback := true, aborted := true,
                        fallbackRequested := true } : AppState).conversations 1 2
                    (fun m => { m with content := jsTrim replyRaw }) } from rfl]
        rw [finalizeStreaming_finalLog
          { ok := true, sources := some (if ua then srcs else []), artifacts := some arts }
          { mkLive 1 2 "" false with
              watchdogFallback := true, aborted := true, fallbackRequested := true,
              conversations := mutateMsg
                ({ mkLive 1 2 "" false with
                    watchdogFallback := true, aborted := true,
                    fallbackRequested := true } : AppState).conversations 1 2
                (fun m => { m with content := jsTrim replyRaw }) }
          (mkLiveRef 1 2 false) { mkLiveMsg 2 "" with content := jsTrim replyRaw } rfl hmsg2]
        simp [fbSucceeds, hr, mkLive]
  · show (finalizeStreaming
        { ok := false, errorMessage := some (Json.str (serverStatusText status body)) }
        (mkLive 1 2 "" false)).fallbackRequested = false
    rw [(finalizeStreaming_flags
      { ok := false, errorMessage := some (Json.str (serverStatusText status body)) }
      (mkLive 1 2 "" false)).2.1]
    rfl
  · show (finalizeStreaming
        { ok := false, errorMessage := some (Json.str (serverStatusText status body)) }
        (mkLive 1 2 "" false)).finalLog = [FinalKind.error]
    rw [finalizeStreaming_finalLog
      { ok := false, errorMessage := some (Json.str (serverStatusText status body)) }
      (mkLive 1 2 "" false) (mkLiveRef 1 2 false) (mkLiveMsg 2 "") rfl rfl]
    rfl
  · rw [hredC, (finalizeStreaming_flags
      { ok := false, errorMessage := some (Json.str (connectFailText base emsg hOk)) }
      (mkLive 1 2 "Hi" true)).2.1]
    rfl
  · rw [hredC, finalizeStreaming_finalLog
      { ok := false, errorMessage := some (Json.str (connectFailText base emsg hOk)) }
      (mkLive 1 2 "Hi" true) (mkLiveRef 1 2 true) (mkLiveMsg 2 "Hi") rfl rfl]
    rfl
